import Mathlib

/-!
Shallow embedding of the ShopEase e-commerce backend
(`backend/main.py`, `backend/database.py`, `backend/schemas.py`).

Modelling conventions:
  * SQLAlchemy tables become lists of rows, in insertion order; `query(...).first()`
    becomes `List.find?`; `DELETE` becomes `List.filter`; an `UPDATE` of one row
    becomes a `List.map` guarded on the primary key.  Autoincrement primary keys
    are tracked by `next_*` counters in the `DB` record.
  * Python `float` currency amounts are modelled as exact rationals (`ℚ`);
    `round(x, 2)` is modelled by `round2`, rounding half to even as Python does.
  * `db.commit()` semantics: a handler's uncommitted session changes are discarded
    when it raises, so each endpoint is a function returning the final persisted
    state; intermediate commits (e.g. the cart get-or-create commit inside
    `add_to_cart`) are reflected by threading the already-persisted state into
    the error results that follow them.
  * `datetime.utcnow()` is an abstract clock value `now : Nat` passed in.
  * HTTP exceptions become `Except HTTPError`; `HTTPError` carries the status
    code and detail string exactly as raised in `main.py`.
-/

namespace ShopEase

/-- One row of the `users` table (`database.py`, class `User`).
The `created_at` timestamp column is omitted: no claim concerns it. -/
structure UserRow where
  id : Nat
  email : String
  username : String
  hashed_password : String
deriving DecidableEq, Repr

/-- One row of the `items` table (`database.py`, class `Item`).
`price` is a `Float` column modelled as `ℚ`; `stock_quantity` is an `Integer`
column (no non-negativity constraint in the schema), modelled as `ℤ`. -/
structure Item where
  id : Nat
  name : String
  description : Option String
  price : ℚ
  category : String
  image_url : Option String
  stock_quantity : Int
deriving DecidableEq, Repr

/-- One row of the `carts` table (`database.py`, class `Cart`).
`updated_at` is kept because `remove_from_cart` writes it explicitly;
`created_at` is omitted. -/
structure CartRow where
  id : Nat
  user_id : Nat
  updated_at : Nat
deriving DecidableEq, Repr

/-- One row of the `cart_items` table (`database.py`, class `CartItem`).
The schema declares `UniqueConstraint('cart_id', 'item_id')` and
`quantity` defaults to 1; `added_at` is omitted. -/
structure CartItemRow where
  id : Nat
  cart_id : Nat
  item_id : Nat
  quantity : Int
deriving DecidableEq, Repr

/-- The persisted database state: the four tables in insertion order plus the
autoincrement counters for the primary keys the endpoints create. -/
structure DB where
  users : List UserRow
  items : List Item
  carts : List CartRow
  cart_items : List CartItemRow
  next_user_id : Nat
  next_cart_id : Nat
  next_cart_item_id : Nat
deriving DecidableEq, Repr

/-- An `HTTPException(status_code=..., detail=...)` from `main.py`. -/
structure HTTPError where
  status_code : Nat
  detail : String
deriving DecidableEq, Repr

/-- The public `User` response schema (`schemas.py`, class `User`):
id, email, username — it has no password-hash field.  (`created_at` omitted.) -/
structure UserPublic where
  id : Nat
  email : String
  username : String
deriving DecidableEq, Repr

/-- One formatted cart line of the cart view built in `get_cart` /
`add_to_cart` (`main.py` lines 289-297 and 385-393). -/
structure CartLineView where
  id : Nat
  item_id : Nat
  name : String
  price : ℚ
  quantity : Int
  image_url : Option String
  subtotal : ℚ
deriving DecidableEq, Repr

/-- The cart view dictionary returned by `get_cart` and embedded in the
`add_to_cart` response (`main.py` lines 299-307). -/
structure CartView where
  id : Nat
  user_id : Nat
  items : List CartLineView
  total_items : Int
  total_price : ℚ
  updated_at : Nat
deriving DecidableEq, Repr

/-- The `add_to_cart` success response (`main.py` lines 395-406). -/
structure AddResponse where
  success : Bool
  message : String
  cart : CartView
deriving DecidableEq, Repr

/-- Python `round(x, 2)`: round to 2 decimal places, ties to even
(banker's rounding), on the exact rational model of the float value. -/
def round2 (q : ℚ) : ℚ :=
  let s := q * 100
  let f : ℤ := Int.floor s
  let r : ℚ := s - (f : ℚ)
  let n : ℤ :=
    if r < 1/2 then f
    else if 1/2 < r then f + 1
    else if f % 2 = 0 then f else f + 1
  (n : ℚ) / 100

/-- `db.query(Cart).filter(Cart.user_id == uid).first()`. -/
def findCart (db : DB) (uid : Nat) : Option CartRow :=
  db.carts.find? (fun c => c.user_id == uid)

/-- `db.query(Item).filter(Item.id == iid).first()`. -/
def findItem (db : DB) (iid : Nat) : Option Item :=
  db.items.find? (fun it => it.id == iid)

/-- `db.query(CartItem).filter(CartItem.cart_id == cid, CartItem.item_id == iid).first()`. -/
def findCartItem (db : DB) (cid iid : Nat) : Option CartItemRow :=
  db.cart_items.find? (fun r => r.cart_id == cid && r.item_id == iid)

/-- The get-or-create-cart block shared by `get_cart`, `add_to_cart` and
`clear_cart` (`main.py` lines 263-269, 325-330, 482-488): look the cart up by
user id; if absent, insert a fresh cart row and commit at once. -/
def getOrCreateCart (db : DB) (uid : Nat) (now : Nat) : CartRow × DB :=
  match findCart db uid with
  | some c => (c, db)
  | none =>
    let c : CartRow := ⟨db.next_cart_id, uid, now⟩
    (c, { db with carts := db.carts ++ [c], next_cart_id := db.next_cart_id + 1 })

/-- The cart-items/items inner join of `main.py` lines 281-282 and 377-378:
each cart line of the given cart paired with its item; lines whose item id
matches no item row are dropped (inner join). -/
def cartJoin (db : DB) (cid : Nat) : List (CartItemRow × Item) :=
  (db.cart_items.filter (fun r => r.cart_id == cid)).filterMap
    (fun r => (findItem db r.item_id).map (fun it => (r, it)))

/-- One formatted line of the cart view (`main.py` lines 289-297): Python's
`float(item.price) if item.price else 0.0` guard tests truthiness, i.e.
price ≠ 0. -/
def lineView (r : CartItemRow) (it : Item) : CartLineView :=
  { id := r.id
    item_id := r.item_id
    name := it.name
    price := if it.price ≠ 0 then it.price else 0
    quantity := r.quantity
    image_url := it.image_url
    subtotal := if it.price ≠ 0 then it.price * (r.quantity : ℚ) else 0 }

/-- The cart view computed for an existing cart (`main.py` lines 281-307,
reused verbatim at 377-405): joined lines, `total_items` = sum of quantities,
`total_price` = sum of price × quantity rounded to 2 decimals at the end. -/
def cartViewOf (db : DB) (cart : CartRow) : CartView :=
  let joined := cartJoin db cart.id
  { id := cart.id
    user_id := cart.user_id
    items := joined.map (fun p => lineView p.1 p.2)
    total_items := (joined.map (fun p => p.1.quantity)).sum
    total_price := round2 ((joined.map (fun p => p.2.price * ((p.1.quantity : Int) : ℚ))).sum)
    updated_at := cart.updated_at }

/-- `GET /cart` (`main.py` lines 259-307): return the user's cart view,
creating an empty cart first if none exists (that branch returns a view with
no lines, `total_items` 0 and `total_price` 0.0). -/
def get_cart (db : DB) (uid : Nat) (now : Nat) : CartView × DB :=
  match findCart db uid with
  | none =>
    let c : CartRow := ⟨db.next_cart_id, uid, now⟩
    let db1 := { db with carts := db.carts ++ [c], next_cart_id := db.next_cart_id + 1 }
    ({ id := c.id, user_id := uid, items := [], total_items := 0, total_price := 0,
       updated_at := c.updated_at }, db1)
  | some cart => (cartViewOf db cart, db)

/-- `POST /cart/items` (`main.py` lines 313-413, `add_to_cart`): validate the
quantity, get or create the cart (committed immediately), look the item up,
refuse when out of stock, then either increment the existing line or insert a
new one, enforcing the stock bound, and return the recomputed cart view. -/
def add_to_cart (db : DB) (uid iid : Nat) (qty : Int) (now : Nat) :
    Except HTTPError AddResponse × DB :=
  if qty ≤ 0 then (.error ⟨400, "Quantity must be greater than 0"⟩, db)
  else
    let cdb := getOrCreateCart db uid now
    let cart := cdb.1
    let db1 := cdb.2
    match findItem db1 iid with
    | none => (.error ⟨404, "Item not found"⟩, db1)
    | some item =>
      if item.stock_quantity ≤ 0 then (.error ⟨400, "Item is out of stock"⟩, db1)
      else
        match findCartItem db1 cart.id iid with
        | some existing =>
          let newQty := existing.quantity + qty
          if item.stock_quantity < newQty then
            (.error ⟨400, "Only " ++ toString item.stock_quantity ++
              " items available in stock"⟩, db1)
          else
            let db2 := { db1 with cart_items := (db1.cart_items.map
              fun r => if r.id = existing.id then { r with quantity := newQty } else r) }
            (.ok ⟨true, "Item added to cart", cartViewOf db2 cart⟩, db2)
        | none =>
          if item.stock_quantity < qty then
            (.error ⟨400, "Only " ++ toString item.stock_quantity ++
              " items available in stock"⟩, db1)
          else
            let newRow : CartItemRow := ⟨db1.next_cart_item_id, cart.id, iid, qty⟩
            let db2 := { db1 with
              cart_items := db1.cart_items ++ [newRow]
              next_cart_item_id := db1.next_cart_item_id + 1 }
            (.ok ⟨true, "Item added to cart", cartViewOf db2 cart⟩, db2)

/-- `PUT /cart/items/item_id` (`main.py` lines 415-470, `update_cart_item`):
reject negative quantities, require the cart, the cart line and the item to
exist, enforce the stock bound, then delete the line when the quantity is 0 or
set it exactly otherwise, and return the `get_cart` view. -/
def update_cart_item (db : DB) (uid iid : Nat) (qty : Int) (now : Nat) :
    Except HTTPError CartView × DB :=
  if qty < 0 then (.error ⟨400, "Quantity cannot be negative"⟩, db)
  else
    match findCart db uid with
    | none => (.error ⟨404, "Cart not found"⟩, db)
    | some cart =>
      match findCartItem db cart.id iid with
      | none => (.error ⟨404, "Item not found in cart"⟩, db)
      | some line =>
        match findItem db iid with
        | none => (.error ⟨404, "Item not found"⟩, db)
        | some item =>
          if item.stock_quantity < qty then
            (.error ⟨400, "Only " ++ toString item.stock_quantity ++
              " items available in stock"⟩, db)
          else
            let db2 :=
              if qty = 0 then
                { db with cart_items := db.cart_items.filter (fun r => r.id != line.id) }
              else
                { db with cart_items := (db.cart_items.map
                  fun r => if r.id = line.id then { r with quantity := qty } else r) }
            let g := get_cart db2 uid now
            (.ok g.1, g.2)

/-- `DELETE /cart/items/item_id` (`main.py` lines 502-553, `remove_from_cart`):
require the cart and the line to exist, delete the line, bump the cart's
`updated_at`, commit. -/
def remove_from_cart (db : DB) (uid iid : Nat) (now : Nat) :
    Except HTTPError String × DB :=
  match findCart db uid with
  | none => (.error ⟨404, "Cart not found"⟩, db)
  | some cart =>
    match findCartItem db cart.id iid with
    | none => (.error ⟨404, "Item not found in cart"⟩, db)
    | some line =>
      let db2 := { db with
        cart_items := db.cart_items.filter (fun r => r.id != line.id),
        carts := (db.carts.map
          fun c => if c.id = cart.id then { c with updated_at := now } else c) }
      (.ok "Item removed from cart", db2)

/-- `DELETE /cart/items/clear` (`main.py` lines 472-500, `clear_cart`): if the
user has no cart, create an empty one and report "Cart is already empty";
otherwise delete every line of the cart.  Never a domain error. -/
def clear_cart (db : DB) (uid : Nat) (now : Nat) : String × DB :=
  match findCart db uid with
  | none =>
    let c : CartRow := ⟨db.next_cart_id, uid, now⟩
    ("Cart is already empty",
      { db with carts := db.carts ++ [c], next_cart_id := db.next_cart_id + 1 })
  | some cart =>
    ("Cart cleared successfully",
      { db with cart_items := db.cart_items.filter (fun r => r.cart_id != cart.id) })

/-- `POST /auth/signup` (`main.py` lines 135-163): refuse when a user with the
same email or username exists; otherwise insert the user with the hashed
password, then insert their cart, and return the public user fields
(`response_model=UserSchema` strips everything but id, email, username,
created_at).  The hash function lives in `backend/auth.py`, which only the
spec describes ("stores a salted hash"); it is taken as a parameter since no
claim depends on its behaviour. -/
def signup (hash : String → String) (db : DB)
    (email username password : String) (now : Nat) :
    Except HTTPError UserPublic × DB :=
  match db.users.find? (fun u => u.email == email || u.username == username) with
  | some _ => (.error ⟨400, "Email or username already registered"⟩, db)
  | none =>
    let u : UserRow := ⟨db.next_user_id, email, username, hash password⟩
    let db1 := { db with users := db.users ++ [u], next_user_id := db.next_user_id + 1 }
    let c : CartRow := ⟨db1.next_cart_id, u.id, now⟩
    let db2 := { db1 with carts := db1.carts ++ [c], next_cart_id := db1.next_cart_id + 1 }
    (.ok ⟨u.id, u.email, u.username⟩, db2)

/-- Substring test for `Item.name.contains(search)`. -/
def strContains (hay needle : String) : Bool :=
  (List.range (hay.toList.length + 1)).any
    (fun i => needle.toList.isPrefixOf (hay.toList.drop i))

/-- `GET /items` (`main.py` lines 186-227, `get_items`): apply the optional
filters (Python truthiness: an empty `category` or `search` string applies no
filter; `min_price`/`max_price` apply whenever present), then
`offset(skip).limit(limit)`.  Defaults: `skip = 0`, `limit = 100`.  The
endpoint serialises each item's columns one-to-one, so the item rows
themselves are returned here. -/
def get_items (db : DB) (skip limit : Nat) (category : Option String)
    (min_price max_price : Option ℚ) (search : Option String) : List Item :=
  let q0 : List Item := db.items
  let q1 : List Item := match category with
    | some c => if c ≠ "" then q0.filter (fun it => it.category == c) else q0
    | none => q0
  let q2 : List Item := match min_price with
    | some p => q1.filter (fun it => decide (p ≤ it.price))
    | none => q1
  let q3 : List Item := match max_price with
    | some p => q2.filter (fun it => decide (it.price ≤ p))
    | none => q2
  let q4 : List Item := match search with
    | some s => if s ≠ "" then q3.filter (fun it => strContains it.name s) else q3
    | none => q3
  (q4.drop skip).take limit

/-- The unique item row a cart line refers to (under the validity invariant
every line has exactly one such item).  Used only to phrase theorems about
the views the endpoints compute via the SQL join. -/
def itemOfD (db : DB) (r : CartItemRow) : Item :=
  (findItem db r.item_id).getD ⟨0, "", none, 0, "", none, 0⟩

/-- One authenticated cart request, for reasoning about sequences of cart
operations (the four mutating cart endpoints of `main.py`). -/
inductive CartOp where
  | add (uid iid : Nat) (qty : Int) (now : Nat)
  | update (uid iid : Nat) (qty : Int) (now : Nat)
  | remove (uid iid : Nat) (now : Nat)
  | clear (uid : Nat) (now : Nat)
deriving DecidableEq, Repr

/-- The persisted state after one cart operation (whatever its outcome). -/
def applyOp (db : DB) : CartOp → DB
  | .add uid iid qty now => (add_to_cart db uid iid qty now).2
  | .update uid iid qty now => (update_cart_item db uid iid qty now).2
  | .remove uid iid now => (remove_from_cart db uid iid now).2
  | .clear uid now => (clear_cart db uid now).2

/-- The persisted state after a sequence of cart operations. -/
def applyOps (db : DB) (ops : List CartOp) : DB :=
  ops.foldl applyOp db

/-- Validity of a database state: the uniqueness constraints of the schema
(`database.py`): unique primary keys, `Cart.user_id` unique, autoincrement
counters fresh, every `CartItem` quantity positive, the
`(cart_id, item_id)` unique constraint, every line's item exists, and every
line within its item's stock.  These are the invariants of claims C9/C10
together with the schema constraints they rest on. -/
def DB.WF (db : DB) : Prop :=
  (db.items.map Item.id).Nodup ∧
  (db.carts.map CartRow.id).Nodup ∧
  (db.carts.map CartRow.user_id).Nodup ∧
  (∀ c ∈ db.carts, c.id < db.next_cart_id) ∧
  (db.cart_items.map CartItemRow.id).Nodup ∧
  (∀ r ∈ db.cart_items, r.id < db.next_cart_item_id) ∧
  (∀ r ∈ db.cart_items, r.cart_id < db.next_cart_id) ∧
  (∀ r ∈ db.cart_items, 1 ≤ r.quantity) ∧
  db.cart_items.Pairwise (fun a b => a.cart_id ≠ b.cart_id ∨ a.item_id ≠ b.item_id) ∧
  (∀ r ∈ db.cart_items, ∃ it ∈ db.items, it.id = r.item_id) ∧
  (∀ r ∈ db.cart_items, ∀ it ∈ db.items, it.id = r.item_id → r.quantity ≤ it.stock_quantity)

instance (db : DB) : Decidable db.WF := by
  unfold DB.WF
  infer_instance

/-! ### General list utilities -/

/-- `List.find?` returns the given element when it is the unique satisfier. -/
theorem find?_eq_some_of_unique {α : Type} {p : α → Bool} {l : List α} {a : α}
    (hp : p a = true) (ha : a ∈ l) (huniq : ∀ x ∈ l, p x = true → x = a) :
    l.find? p = some a := by
  induction l with
  | nil => cases ha
  | cons b tl ih =>
    rcases List.mem_cons.mp ha with h | h
    · subst h
      simp [List.find?_cons, hp]
    · rw [List.find?_cons]
      cases hb : p b with
      | true => exact congrArg some (huniq b (List.mem_cons_self b tl) hb)
      | false =>
        exact ih h (fun x hx hpx => huniq x (List.mem_cons_of_mem b hx) hpx)

/-- A key function whose image is duplicate-free is injective on the list. -/
theorem key_inj {α β : Type} {k : α → β} {l : List α}
    (h : (l.map k).Nodup) {a b : α} (ha : a ∈ l) (hb : b ∈ l) (hk : k a = k b) :
    a = b := by
  induction l with
  | nil => cases ha
  | cons c tl ih =>
    rw [List.map_cons, List.nodup_cons] at h
    rcases List.mem_cons.mp ha with h1 | h1 <;> rcases List.mem_cons.mp hb with h2 | h2
    · exact h1.trans h2.symm
    · subst h1
      exact absurd (hk ▸ List.mem_map_of_mem k h2) h.1
    · subst h2
      exact absurd (hk ▸ List.mem_map_of_mem k h1) h.1
    · exact ih h.2 h1 h2

/-- A `filterMap` whose function always fires is a `map`. -/
theorem filterMap_eq_map_of_some {α β : Type} {f : α → Option β} {g : α → β}
    {l : List α} (h : ∀ a ∈ l, f a = some (g a)) : l.filterMap f = l.map g := by
  induction l with
  | nil => rfl
  | cons b tl ih =>
    rw [List.filterMap_cons, h b (List.mem_cons_self b tl), List.map_cons,
      ih (fun a ha => h a (List.mem_cons_of_mem b ha))]

/-! ### Lookup characterisations -/

theorem findCart_eq_some {db : DB} (hnd : (db.carts.map CartRow.user_id).Nodup)
    {c : CartRow} (hc : c ∈ db.carts) : findCart db c.user_id = some c := by
  apply find?_eq_some_of_unique (by simp) hc
  intro x hx hpx
  exact key_inj hnd hx hc (by simpa using hpx)

theorem findItem_eq_some {db : DB} (hnd : (db.items.map Item.id).Nodup)
    {it : Item} (hit : it ∈ db.items) : findItem db it.id = some it := by
  apply find?_eq_some_of_unique (by simp) hit
  intro x hx hpx
  exact key_inj hnd hx hit (by simpa using hpx)

/-! ### Branch characterisations of each endpoint -/

theorem getOrCreateCart_found {db : DB} {uid now : Nat} {c : CartRow}
    (h : findCart db uid = some c) : getOrCreateCart db uid now = (c, db) := by
  unfold getOrCreateCart
  rw [h]

theorem getOrCreateCart_missing {db : DB} {uid now : Nat}
    (h : findCart db uid = none) :
    getOrCreateCart db uid now = (⟨db.next_cart_id, uid, now⟩,
      { db with carts := db.carts ++ [⟨db.next_cart_id, uid, now⟩],
                next_cart_id := db.next_cart_id + 1 }) := by
  unfold getOrCreateCart
  rw [h]

theorem get_cart_missing {db : DB} {uid now : Nat} (h : findCart db uid = none) :
    get_cart db uid now =
      ({ id := db.next_cart_id, user_id := uid, items := [], total_items := 0,
         total_price := 0, updated_at := now },
       { db with carts := db.carts ++ [⟨db.next_cart_id, uid, now⟩],
                 next_cart_id := db.next_cart_id + 1 }) := by
  unfold get_cart
  rw [h]

theorem get_cart_found {db : DB} {uid now : Nat} {cart : CartRow}
    (h : findCart db uid = some cart) :
    get_cart db uid now = (cartViewOf db cart, db) := by
  unfold get_cart
  rw [h]

theorem clear_cart_missing {db : DB} {uid now : Nat} (h : findCart db uid = none) :
    clear_cart db uid now = ("Cart is already empty",
      { db with carts := db.carts ++ [⟨db.next_cart_id, uid, now⟩],
                next_cart_id := db.next_cart_id + 1 }) := by
  unfold clear_cart
  rw [h]

theorem clear_cart_found {db : DB} {uid now : Nat} {cart : CartRow}
    (h : findCart db uid = some cart) :
    clear_cart db uid now = ("Cart cleared successfully",
      { db with cart_items := db.cart_items.filter (fun r => r.cart_id != cart.id) }) := by
  unfold clear_cart
  rw [h]

theorem add_to_cart_nonpos {db : DB} {uid iid : Nat} {qty : Int} {now : Nat}
    (h : qty ≤ 0) :
    add_to_cart db uid iid qty now =
      (.error ⟨400, "Quantity must be greater than 0"⟩, db) := by
  unfold add_to_cart
  rw [if_pos h]

theorem add_to_cart_no_item {db : DB} {uid iid : Nat} {qty : Int} {now : Nat}
    {cart : CartRow} {db1 : DB} (h : ¬ qty ≤ 0)
    (hg : getOrCreateCart db uid now = (cart, db1))
    (hit : findItem db1 iid = none) :
    add_to_cart db uid iid qty now = (.error ⟨404, "Item not found"⟩, db1) := by
  unfold add_to_cart
  rw [if_neg h, hg]
  dsimp only
  rw [hit]

theorem add_to_cart_out_of_stock {db : DB} {uid iid : Nat} {qty : Int} {now : Nat}
    {cart : CartRow} {db1 : DB} {item : Item} (h : ¬ qty ≤ 0)
    (hg : getOrCreateCart db uid now = (cart, db1))
    (hit : findItem db1 iid = some item) (hs : item.stock_quantity ≤ 0) :
    add_to_cart db uid iid qty now = (.error ⟨400, "Item is out of stock"⟩, db1) := by
  unfold add_to_cart
  rw [if_neg h, hg]
  dsimp only
  rw [hit]
  dsimp only
  rw [if_pos hs]

theorem add_to_cart_exist_over {db : DB} {uid iid : Nat} {qty : Int} {now : Nat}
    {cart : CartRow} {db1 : DB} {item : Item} {line : CartItemRow} (h : ¬ qty ≤ 0)
    (hg : getOrCreateCart db uid now = (cart, db1))
    (hit : findItem db1 iid = some item) (hs : ¬ item.stock_quantity ≤ 0)
    (hline : findCartItem db1 cart.id iid = some line)
    (hover : item.stock_quantity < line.quantity + qty) :
    add_to_cart db uid iid qty now =
      (.error ⟨400, "Only " ++ toString item.stock_quantity ++
        " items available in stock"⟩, db1) := by
  unfold add_to_cart
  rw [if_neg h, hg]
  dsimp only
  rw [hit]
  dsimp only
  rw [if_neg hs, hline]
  dsimp only
  rw [if_pos hover]

theorem add_to_cart_exist_ok {db : DB} {uid iid : Nat} {qty : Int} {now : Nat}
    {cart : CartRow} {db1 : DB} {item : Item} {line : CartItemRow} (h : ¬ qty ≤ 0)
    (hg : getOrCreateCart db uid now = (cart, db1))
    (hit : findItem db1 iid = some item) (hs : ¬ item.stock_quantity ≤ 0)
    (hline : findCartItem db1 cart.id iid = some line)
    (hover : ¬ item.stock_quantity < line.quantity + qty) :
    add_to_cart db uid iid qty now =
      (.ok ⟨true, "Item added to cart", cartViewOf { db1 with cart_items := (db1.cart_items.map
          fun r => if r.id = line.id then { r with quantity := line.quantity + qty } else r) } cart⟩,
        { db1 with cart_items := (db1.cart_items.map
          fun r => if r.id = line.id then { r with quantity := line.quantity + qty } else r) }) := by
  unfold add_to_cart
  rw [if_neg h, hg]
  dsimp only
  rw [hit]
  dsimp only
  rw [if_neg hs, hline]
  dsimp only
  rw [if_neg hover]

theorem add_to_cart_new_over {db : DB} {uid iid : Nat} {qty : Int} {now : Nat}
    {cart : CartRow} {db1 : DB} {item : Item} (h : ¬ qty ≤ 0)
    (hg : getOrCreateCart db uid now = (cart, db1))
    (hit : findItem db1 iid = some item) (hs : ¬ item.stock_quantity ≤ 0)
    (hline : findCartItem db1 cart.id iid = none)
    (hover : item.stock_quantity < qty) :
    add_to_cart db uid iid qty now =
      (.error ⟨400, "Only " ++ toString item.stock_quantity ++
        " items available in stock"⟩, db1) := by
  unfold add_to_cart
  rw [if_neg h, hg]
  dsimp only
  rw [hit]
  dsimp only
  rw [if_neg hs, hline]
  dsimp only
  rw [if_pos hover]

theorem add_to_cart_new_ok {db : DB} {uid iid : Nat} {qty : Int} {now : Nat}
    {cart : CartRow} {db1 : DB} {item : Item} (h : ¬ qty ≤ 0)
    (hg : getOrCreateCart db uid now = (cart, db1))
    (hit : findItem db1 iid = some item) (hs : ¬ item.stock_quantity ≤ 0)
    (hline : findCartItem db1 cart.id iid = none)
    (hover : ¬ item.stock_quantity < qty) :
    add_to_cart db uid iid qty now =
      (.ok ⟨true, "Item added to cart", cartViewOf { db1 with
          cart_items := db1.cart_items ++ [⟨db1.next_cart_item_id, cart.id, iid, qty⟩]
          next_cart_item_id := db1.next_cart_item_id + 1 } cart⟩,
        { db1 with
          cart_items := db1.cart_items ++ [⟨db1.next_cart_item_id, cart.id, iid, qty⟩]
          next_cart_item_id := db1.next_cart_item_id + 1 }) := by
  unfold add_to_cart
  rw [if_neg h, hg]
  dsimp only
  rw [hit]
  dsimp only
  rw [if_neg hs, hline]
  dsimp only
  rw [if_neg hover]





theorem update_neg {db : DB} {uid iid : Nat} {qty : Int} {now : Nat} (h : qty < 0) :
    update_cart_item db uid iid qty now =
      (.error ⟨400, "Quantity cannot be negative"⟩, db) := by
  unfold update_cart_item
  rw [if_pos h]

theorem update_no_cart {db : DB} {uid iid : Nat} {qty : Int} {now : Nat}
    (h : ¬ qty < 0) (hc : findCart db uid = none) :
    update_cart_item db uid iid qty now = (.error ⟨404, "Cart not found"⟩, db) := by
  unfold update_cart_item
  rw [if_neg h, hc]

theorem update_no_line {db : DB} {uid iid : Nat} {qty : Int} {now : Nat}
    {cart : CartRow} (h : ¬ qty < 0) (hc : findCart db uid = some cart)
    (hl : findCartItem db cart.id iid = none) :
    update_cart_item db uid iid qty now =
      (.error ⟨404, "Item not found in cart"⟩, db) := by
  unfold update_cart_item
  rw [if_neg h, hc]
  dsimp only
  rw [hl]

theorem update_no_item {db : DB} {uid iid : Nat} {qty : Int} {now : Nat}
    {cart : CartRow} {line : CartItemRow} (h : ¬ qty < 0)
    (hc : findCart db uid = some cart) (hl : findCartItem db cart.id iid = some line)
    (hi : findItem db iid = none) :
    update_cart_item db uid iid qty now = (.error ⟨404, "Item not found"⟩, db) := by
  unfold update_cart_item
  rw [if_neg h, hc]
  dsimp only
  rw [hl]
  dsimp only
  rw [hi]

theorem update_over {db : DB} {uid iid : Nat} {qty : Int} {now : Nat}
    {cart : CartRow} {line : CartItemRow} {item : Item} (h : ¬ qty < 0)
    (hc : findCart db uid = some cart) (hl : findCartItem db cart.id iid = some line)
    (hi : findItem db iid = some item) (hover : item.stock_quantity < qty) :
    update_cart_item db uid iid qty now =
      (.error ⟨400, "Only " ++ toString item.stock_quantity ++
        " items available in stock"⟩, db) := by
  unfold update_cart_item
  rw [if_neg h, hc]
  dsimp only
  rw [hl]
  dsimp only
  rw [hi]
  dsimp only
  rw [if_pos hover]

theorem update_zero {db : DB} {uid iid : Nat} {now : Nat}
    {cart : CartRow} {line : CartItemRow} {item : Item}
    (hc : findCart db uid = some cart) (hl : findCartItem db cart.id iid = some line)
    (hi : findItem db iid = some item) (hover : ¬ item.stock_quantity < 0) :
    update_cart_item db uid iid 0 now =
      (.ok (get_cart { db with
          cart_items := db.cart_items.filter (fun r => r.id != line.id) } uid now).1,
        (get_cart { db with
          cart_items := db.cart_items.filter (fun r => r.id != line.id) } uid now).2) := by
  unfold update_cart_item
  rw [if_neg (by omega : ¬ (0 : Int) < 0), hc]
  dsimp only
  rw [hl]
  dsimp only
  rw [hi]
  dsimp only
  rw [if_neg hover, if_pos rfl]

theorem update_set {db : DB} {uid iid : Nat} {qty : Int} {now : Nat}
    {cart : CartRow} {line : CartItemRow} {item : Item} (h : ¬ qty < 0)
    (hq : qty ≠ 0)
    (hc : findCart db uid = some cart) (hl : findCartItem db cart.id iid = some line)
    (hi : findItem db iid = some item) (hover : ¬ item.stock_quantity < qty) :
    update_cart_item db uid iid qty now =
      (.ok (get_cart { db with cart_items := (db.cart_items.map
          fun r => if r.id = line.id then { r with quantity := qty } else r) } uid now).1,
        (get_cart { db with cart_items := (db.cart_items.map
          fun r => if r.id = line.id then { r with quantity := qty } else r) } uid now).2) := by
  unfold update_cart_item
  rw [if_neg h, hc]
  dsimp only
  rw [hl]
  dsimp only
  rw [hi]
  dsimp only
  rw [if_neg hover, if_neg hq]

theorem remove_no_cart {db : DB} {uid iid : Nat} {now : Nat}
    (hc : findCart db uid = none) :
    remove_from_cart db uid iid now = (.error ⟨404, "Cart not found"⟩, db) := by
  unfold remove_from_cart
  rw [hc]

theorem remove_no_line {db : DB} {uid iid : Nat} {now : Nat} {cart : CartRow}
    (hc : findCart db uid = some cart) (hl : findCartItem db cart.id iid = none) :
    remove_from_cart db uid iid now =
      (.error ⟨404, "Item not found in cart"⟩, db) := by
  unfold remove_from_cart
  rw [hc]
  dsimp only
  rw [hl]

theorem remove_ok {db : DB} {uid iid : Nat} {now : Nat} {cart : CartRow}
    {line : CartItemRow}
    (hc : findCart db uid = some cart) (hl : findCartItem db cart.id iid = some line) :
    remove_from_cart db uid iid now = (.ok "Item removed from cart",
      { db with
        cart_items := db.cart_items.filter (fun r => r.id != line.id)
        carts := (db.carts.map
          fun c => if c.id = cart.id then { c with updated_at := now } else c) }) := by
  unfold remove_from_cart
  rw [hc]
  dsimp only
  rw [hl]

/-! ### Lookup misses -/

theorem findCartItem_none_of_no_pair {db : DB} {cid iid : Nat}
    (h : ∀ r ∈ db.cart_items, ¬(r.cart_id = cid ∧ r.item_id = iid)) :
    findCartItem db cid iid = none := by
  apply List.find?_eq_none.mpr
  intro r hr
  simpa using h r hr

theorem no_pair_of_fresh_cart {db : DB} {cid iid : Nat}
    (hlt : ∀ r ∈ db.cart_items, r.cart_id < cid) :
    ∀ r ∈ db.cart_items, ¬(r.cart_id = cid ∧ r.item_id = iid) := by
  intro r hr hpair
  exact absurd hpair.1 (Nat.ne_of_lt (hlt r hr))

theorem no_pair_of_no_user_line {db : DB} {uid iid : Nat} {cart : CartRow}
    (hc : cart ∈ db.carts) (hcu : cart.user_id = uid)
    (hno : ∀ c ∈ db.carts, c.user_id = uid →
      ∀ r ∈ db.cart_items, r.cart_id = c.id → r.item_id ≠ iid) :
    ∀ r ∈ db.cart_items, ¬(r.cart_id = cart.id ∧ r.item_id = iid) := by
  intro r hr hpair
  exact hno cart hc hcu r hr hpair.1 hpair.2

/-! ### The get-or-create-cart block: full characterisation -/

theorem getOrCreateCart_spec (db : DB) (uid now : Nat) (hwf : db.WF) :
    ∃ cart db1, getOrCreateCart db uid now = (cart, db1) ∧
      cart.user_id = uid ∧ cart ∈ db1.carts ∧
      findCart db1 uid = some cart ∧
      db1.users = db.users ∧ db1.items = db.items ∧
      db1.cart_items = db.cart_items ∧
      db1.next_cart_item_id = db.next_cart_item_id ∧
      (findCart db uid = none → ∀ r ∈ db.cart_items, r.cart_id < cart.id) ∧
      (findCart db uid = some cart ∨ findCart db uid = none) ∧
      db1.WF := by
  obtain ⟨hind, hcnd, hund, hclt, hcind, hcilt, hcicl, hqpos, hpw, hex, hqs⟩ := hwf
  rcases hfind : findCart db uid with _ | c
  · refine ⟨⟨db.next_cart_id, uid, now⟩,
      { db with carts := db.carts ++ [⟨db.next_cart_id, uid, now⟩],
                next_cart_id := db.next_cart_id + 1 },
      getOrCreateCart_missing hfind, rfl, by simp, ?_, rfl, rfl, rfl, rfl,
      fun _ => hcicl, Or.inr rfl, ?_⟩
    · unfold findCart at hfind ⊢
      simp only [List.find?_append, hfind]
      simp [List.find?_cons]
    · have huid_not : uid ∉ db.carts.map CartRow.user_id := by
        intro hmem
        rw [List.mem_map] at hmem
        obtain ⟨c, hc, hcu⟩ := hmem
        unfold findCart at hfind
        rw [List.find?_eq_none] at hfind
        exact hfind c hc (by simpa using hcu)
      have hid_not : db.next_cart_id ∉ db.carts.map CartRow.id := by
        intro hmem
        rw [List.mem_map] at hmem
        obtain ⟨c, hc, hcu⟩ := hmem
        exact absurd hcu (Nat.ne_of_lt (hclt c hc))
      refine ⟨hind, ?_, ?_, ?_, hcind, hcilt, ?_, hqpos, hpw, hex, hqs⟩
      · rw [List.map_append, List.nodup_append]
        refine ⟨hcnd, by simp, ?_⟩
        intro a ha hb
        simp only [List.map_cons, List.map_nil, List.mem_singleton] at hb
        subst hb
        exact hid_not ha
      · rw [List.map_append, List.nodup_append]
        refine ⟨hund, by simp, ?_⟩
        intro a ha hb
        simp only [List.map_cons, List.map_nil, List.mem_singleton] at hb
        subst hb
        exact huid_not ha
      · intro c hc
        rcases List.mem_append.mp hc with h | h
        · exact Nat.lt_succ_of_lt (hclt c h)
        · simp at h
          subst h
          exact Nat.lt_succ_self _
      · intro r hr
        exact Nat.lt_succ_of_lt (hcicl r hr)
  · refine ⟨c, db, getOrCreateCart_found hfind, by simpa using List.find?_some hfind,
      List.mem_of_find?_eq_some hfind, ?_, rfl, rfl, rfl, rfl,
      ?_, Or.inl rfl,
      ⟨hind, hcnd, hund, hclt, hcind, hcilt, hcicl, hqpos, hpw, hex, hqs⟩⟩
    · exact hfind
    · intro h
      exact Option.noConfusion h





/-! ### Preservation of validity by each mutation shape -/

theorem WF_of_filter (db : DB) (hwf : db.WF) (p : CartItemRow → Bool) :
    DB.WF { db with cart_items := db.cart_items.filter p } := by
  obtain ⟨hind, hcnd, hund, hclt, hcind, hcilt, hcicl, hqpos, hpw, hex, hqs⟩ := hwf
  refine ⟨hind, hcnd, hund, hclt, ?_, ?_, ?_, ?_, ?_, ?_, ?_⟩
  · exact List.Nodup.sublist (List.Sublist.map _ (List.filter_sublist _)) hcind
  · intro r hr
    exact hcilt r (List.mem_of_mem_filter hr)
  · intro r hr
    exact hcicl r (List.mem_of_mem_filter hr)
  · intro r hr
    exact hqpos r (List.mem_of_mem_filter hr)
  · exact List.Pairwise.sublist (List.filter_sublist _) hpw
  · intro r hr
    exact hex r (List.mem_of_mem_filter hr)
  · intro r hr
    exact hqs r (List.mem_of_mem_filter hr)

theorem map_key_of_preserve {α β : Type} (f : α → α) (k : α → β) (l : List α)
    (h : ∀ a, k (f a) = k a) : (l.map f).map k = l.map k := by
  rw [List.map_map]
  exact List.map_congr_left (fun a _ => h a)

theorem WF_remove_shape (db : DB) (hwf : db.WF) (p : CartItemRow → Bool)
    (cid now : Nat) :
    DB.WF { db with
      cart_items := db.cart_items.filter p
      carts := (db.carts.map
        fun c => if c.id = cid then { c with updated_at := now } else c) } := by
  have hbase := WF_of_filter db hwf p
  obtain ⟨hind, hcnd, hund, hclt, hcind, hcilt, hcicl, hqpos, hpw, hex, hqs⟩ := hbase
  dsimp only at hcnd hund hclt
  have hid : ∀ c : CartRow,
      (if c.id = cid then { c with updated_at := now } else c : CartRow).id = c.id := by
    intro c
    split <;> rfl
  have huid : ∀ c : CartRow,
      (if c.id = cid then { c with updated_at := now } else c : CartRow).user_id =
        c.user_id := by
    intro c
    split <;> rfl
  refine ⟨hind, ?_, ?_, ?_, hcind, hcilt, hcicl, hqpos, hpw, hex, hqs⟩
  · dsimp only
    rw [map_key_of_preserve _ _ _ hid]
    exact hcnd
  · dsimp only
    rw [map_key_of_preserve _ _ _ huid]
    exact hund
  · intro c hc
    dsimp only at hc
    obtain ⟨c0, hc0, rfl⟩ := List.mem_map.mp hc
    rw [hid c0]
    exact hclt c0 hc0

theorem WF_setqty (db : DB) (hwf : db.WF) (x : Nat) (q : Int) (h1 : 1 ≤ q)
    (hbound : ∀ r ∈ db.cart_items, r.id = x → ∀ it ∈ db.items, it.id = r.item_id →
      q ≤ it.stock_quantity) :
    DB.WF { db with cart_items := (db.cart_items.map
      fun r => if r.id = x then { r with quantity := q } else r) } := by
  obtain ⟨hind, hcnd, hund, hclt, hcind, hcilt, hcicl, hqpos, hpw, hex, hqs⟩ := hwf
  have hid : ∀ r : CartItemRow,
      (if r.id = x then { r with quantity := q } else r : CartItemRow).id = r.id := by
    intro r
    split <;> rfl
  have hcart : ∀ r : CartItemRow,
      (if r.id = x then { r with quantity := q } else r : CartItemRow).cart_id =
        r.cart_id := by
    intro r
    split <;> rfl
  have hitem : ∀ r : CartItemRow,
      (if r.id = x then { r with quantity := q } else r : CartItemRow).item_id =
        r.item_id := by
    intro r
    split <;> rfl
  refine ⟨hind, hcnd, hund, hclt, ?_, ?_, ?_, ?_, ?_, ?_, ?_⟩
  · dsimp only
    rw [map_key_of_preserve _ _ _ hid]
    exact hcind
  · intro r hr
    obtain ⟨r0, hr0, rfl⟩ := List.mem_map.mp hr
    rw [hid r0]
    exact hcilt r0 hr0
  · intro r hr
    obtain ⟨r0, hr0, rfl⟩ := List.mem_map.mp hr
    rw [hcart r0]
    exact hcicl r0 hr0
  · intro r hr
    obtain ⟨r0, hr0, rfl⟩ := List.mem_map.mp hr
    by_cases h : r0.id = x
    · simp only [if_pos h]
      exact h1
    · simp only [if_neg h]
      exact hqpos r0 hr0
  · rw [List.pairwise_map]
    refine hpw.imp ?_
    intro a b h
    rw [hcart a, hcart b, hitem a, hitem b]
    exact h
  · intro r hr
    obtain ⟨r0, hr0, rfl⟩ := List.mem_map.mp hr
    rw [hitem r0]
    exact hex r0 hr0
  · intro r hr it hit hide
    obtain ⟨r0, hr0, rfl⟩ := List.mem_map.mp hr
    rw [hitem r0] at hide
    by_cases h : r0.id = x
    · simp only [if_pos h]
      exact hbound r0 hr0 h it hit hide
    · simp only [if_neg h]
      exact hqs r0 hr0 it hit hide

theorem WF_append_line (db : DB) (hwf : db.WF) (cid iid : Nat) (q : Int)
    (hcid : cid < db.next_cart_id) (h1 : 1 ≤ q)
    (hnopair : ∀ r ∈ db.cart_items, ¬(r.cart_id = cid ∧ r.item_id = iid))
    (hexi : ∃ it ∈ db.items, it.id = iid)
    (hbound : ∀ it ∈ db.items, it.id = iid → q ≤ it.stock_quantity) :
    DB.WF { db with
      cart_items := db.cart_items ++ [⟨db.next_cart_item_id, cid, iid, q⟩]
      next_cart_item_id := db.next_cart_item_id + 1 } := by
  obtain ⟨hind, hcnd, hund, hclt, hcind, hcilt, hcicl, hqpos, hpw, hex, hqs⟩ := hwf
  refine ⟨hind, hcnd, hund, hclt, ?_, ?_, ?_, ?_, ?_, ?_, ?_⟩
  · rw [List.map_append, List.nodup_append]
    refine ⟨hcind, by simp, ?_⟩
    intro a ha hb
    simp only [List.map_cons, List.map_nil, List.mem_singleton] at hb
    subst hb
    obtain ⟨r, hr, hrid⟩ := List.mem_map.mp ha
    exact absurd hrid (Nat.ne_of_lt (hcilt r hr))
  · intro r hr
    rcases List.mem_append.mp hr with h | h
    · exact Nat.lt_succ_of_lt (hcilt r h)
    · simp only [List.mem_singleton] at h
      subst h
      exact Nat.lt_succ_self _
  · intro r hr
    rcases List.mem_append.mp hr with h | h
    · exact hcicl r h
    · simp only [List.mem_singleton] at h
      subst h
      exact hcid
  · intro r hr
    rcases List.mem_append.mp hr with h | h
    · exact hqpos r h
    · simp only [List.mem_singleton] at h
      subst h
      exact h1
  · rw [List.pairwise_append]
    refine ⟨hpw, by simp, ?_⟩
    intro a ha b hb
    simp only [List.mem_singleton] at hb
    subst hb
    have := hnopair a ha
    rw [not_and_or] at this
    exact this
  · intro r hr
    rcases List.mem_append.mp hr with h | h
    · exact hex r h
    · simp only [List.mem_singleton] at h
      subst h
      exact hexi
  · intro r hr it hit hide
    rcases List.mem_append.mp hr with h | h
    · exact hqs r h it hit hide
    · simp only [List.mem_singleton] at h
      subst h
      exact hbound it hit hide

theorem WF_append_cart (db : DB) (hwf : db.WF) (uid now : Nat)
    (h : findCart db uid = none) :
    DB.WF { db with
      carts := db.carts ++ [⟨db.next_cart_id, uid, now⟩]
      next_cart_id := db.next_cart_id + 1 } := by
  obtain ⟨cart, db1, hgoc, -, -, -, -, -, -, -, -, -, hwf1⟩ :=
    getOrCreateCart_spec db uid now hwf
  rw [getOrCreateCart_missing h] at hgoc
  injection hgoc with h1 h2
  exact h2 ▸ hwf1

theorem WF_get_cart (db : DB) (uid now : Nat) (hwf : db.WF) :
    ((get_cart db uid now).2).WF := by
  rcases hfind : findCart db uid with _ | cart
  · rw [get_cart_missing hfind]
    exact WF_append_cart db hwf uid now hfind
  · rw [get_cart_found hfind]
    exact hwf





theorem WF_add (db : DB) (uid iid : Nat) (qty : Int) (now : Nat) (hwf : db.WF) :
    ((add_to_cart db uid iid qty now).2).WF := by
  by_cases hq : qty ≤ 0
  · rw [add_to_cart_nonpos hq]
    exact hwf
  · obtain ⟨cart, db1, hgoc, hcu, hcmem, hfc1, -, -, -, -, -, -, hwf1⟩ :=
      getOrCreateCart_spec db uid now hwf
    rcases hit : findItem db1 iid with _ | item
    · rw [add_to_cart_no_item hq hgoc hit]
      exact hwf1
    · by_cases hs : item.stock_quantity ≤ 0
      · rw [add_to_cart_out_of_stock hq hgoc hit hs]
        exact hwf1
      · have hitmem : item ∈ db1.items := List.mem_of_find?_eq_some hit
        have hitid : item.id = iid := by simpa using List.find?_some hit
        have hituniq : ∀ it ∈ db1.items, it.id = iid → it = item := by
          intro it hitm hide
          exact key_inj hwf1.1 hitm hitmem (hide.trans hitid.symm)
        rcases hline : findCartItem db1 cart.id iid with _ | line
        · by_cases hover : item.stock_quantity < qty
          · rw [add_to_cart_new_over hq hgoc hit hs hline hover]
            exact hwf1
          · rw [add_to_cart_new_ok hq hgoc hit hs hline hover]
            refine WF_append_line db1 hwf1 cart.id iid qty
              (hwf1.2.2.2.1 cart hcmem) (by omega) ?_ ⟨item, hitmem, hitid⟩ ?_
            · intro r hr hpair
              have := List.find?_eq_none.mp hline r hr
              simp only [Bool.and_eq_true, beq_iff_eq, not_and] at this
              exact this hpair.1 hpair.2
            · intro it hitm hide
              rw [hituniq it hitm hide]
              omega
        · by_cases hover : item.stock_quantity < line.quantity + qty
          · rw [add_to_cart_exist_over hq hgoc hit hs hline hover]
            exact hwf1
          · rw [add_to_cart_exist_ok hq hgoc hit hs hline hover]
            have hlmem : line ∈ db1.cart_items := List.mem_of_find?_eq_some hline
            have hlpair : line.cart_id = cart.id ∧ line.item_id = iid := by
              simpa using List.find?_some hline
            have hq1 : 1 ≤ line.quantity := hwf1.2.2.2.2.2.2.2.1 line hlmem
            refine WF_setqty db1 hwf1 line.id (line.quantity + qty) (by omega) ?_
            intro r hr hrid it hitm hide
            have hreq : r = line := key_inj hwf1.2.2.2.2.1 hr hlmem hrid
            subst hreq
            rw [hituniq it hitm (hide.trans hlpair.2)]
            omega





theorem WF_update (db : DB) (uid iid : Nat) (qty : Int) (now : Nat) (hwf : db.WF) :
    ((update_cart_item db uid iid qty now).2).WF := by
  by_cases hneg : qty < 0
  · rw [update_neg hneg]
    exact hwf
  · rcases hc : findCart db uid with _ | cart
    · rw [update_no_cart hneg hc]
      exact hwf
    · rcases hl : findCartItem db cart.id iid with _ | line
      · rw [update_no_line hneg hc hl]
        exact hwf
      · rcases hi : findItem db iid with _ | item
        · rw [update_no_item hneg hc hl hi]
          exact hwf
        · by_cases hover : item.stock_quantity < qty
          · rw [update_over hneg hc hl hi hover]
            exact hwf
          · have hitmem : item ∈ db.items := List.mem_of_find?_eq_some hi
            have hitid : item.id = iid := by simpa using List.find?_some hi
            have hlmem : line ∈ db.cart_items := List.mem_of_find?_eq_some hl
            have hlpair : line.cart_id = cart.id ∧ line.item_id = iid := by
              simpa using List.find?_some hl
            by_cases hq0 : qty = 0
            · subst hq0
              rw [update_zero hc hl hi hover]
              exact WF_get_cart _ uid now (WF_of_filter db hwf _)
            · rw [update_set hneg hq0 hc hl hi hover]
              refine WF_get_cart _ uid now (WF_setqty db hwf line.id qty (by omega) ?_)
              intro r hr hrid it hitm hide
              have hreq : r = line := key_inj hwf.2.2.2.2.1 hr hlmem hrid
              subst hreq
              have : it = item :=
                key_inj hwf.1 hitm hitmem ((hide.trans hlpair.2).trans hitid.symm)
              subst this
              omega

theorem WF_remove (db : DB) (uid iid : Nat) (now : Nat) (hwf : db.WF) :
    ((remove_from_cart db uid iid now).2).WF := by
  rcases hc : findCart db uid with _ | cart
  · rw [remove_no_cart hc]
    exact hwf
  · rcases hl : findCartItem db cart.id iid with _ | line
    · rw [remove_no_line hc hl]
      exact hwf
    · rw [remove_ok hc hl]
      exact WF_remove_shape db hwf _ cart.id now

theorem WF_clear (db : DB) (uid : Nat) (now : Nat) (hwf : db.WF) :
    ((clear_cart db uid now).2).WF := by
  rcases hc : findCart db uid with _ | cart
  · rw [clear_cart_missing hc]
    exact WF_append_cart db hwf uid now hc
  · rw [clear_cart_found hc]
    exact WF_of_filter db hwf _

theorem WF_applyOp (db : DB) (op : CartOp) (hwf : db.WF) : (applyOp db op).WF := by
  cases op with
  | add uid iid qty now => exact WF_add db uid iid qty now hwf
  | update uid iid qty now => exact WF_update db uid iid qty now hwf
  | remove uid iid now => exact WF_remove db uid iid now hwf
  | clear uid now => exact WF_clear db uid now hwf

theorem WF_applyOps (db : DB) (ops : List CartOp) (hwf : db.WF) :
    (applyOps db ops).WF := by
  induction ops generalizing db with
  | nil => exact hwf
  | cons op tl ih => exact ih (applyOp db op) (WF_applyOp db op hwf)

theorem get_cart_items_eq (db : DB) (uid now : Nat) :
    ((get_cart db uid now).2).items = db.items := by
  unfold get_cart
  dsimp only
  repeat' split
  all_goals rfl

theorem add_items_eq (db : DB) (uid iid : Nat) (qty : Int) (now : Nat) :
    ((add_to_cart db uid iid qty now).2).items = db.items := by
  unfold add_to_cart getOrCreateCart
  dsimp only
  repeat' split
  all_goals rfl

theorem update_items_eq (db : DB) (uid iid : Nat) (qty : Int) (now : Nat) :
    ((update_cart_item db uid iid qty now).2).items = db.items := by
  unfold update_cart_item get_cart
  dsimp only
  repeat' split
  all_goals rfl

theorem remove_items_eq (db : DB) (uid iid : Nat) (now : Nat) :
    ((remove_from_cart db uid iid now).2).items = db.items := by
  unfold remove_from_cart
  dsimp only
  repeat' split
  all_goals rfl

theorem clear_items_eq (db : DB) (uid now : Nat) :
    ((clear_cart db uid now).2).items = db.items := by
  unfold clear_cart
  dsimp only
  repeat' split
  all_goals rfl

theorem applyOp_items (db : DB) (op : CartOp) : (applyOp db op).items = db.items := by
  cases op with
  | add uid iid qty now => exact add_items_eq db uid iid qty now
  | update uid iid qty now => exact update_items_eq db uid iid qty now
  | remove uid iid now => exact remove_items_eq db uid iid now
  | clear uid now => exact clear_items_eq db uid now

theorem applyOps_items (db : DB) (ops : List CartOp) :
    (applyOps db ops).items = db.items := by
  induction ops generalizing db with
  | nil => rfl
  | cons op tl ih => exact (ih (applyOp db op)).trans (applyOp_items db op)

/-- Equality of endpoint results is decidable (needed to evaluate the
model at concrete inputs). -/
instance exceptDecEq {e a : Type} [DecidableEq e] [DecidableEq a] :
    DecidableEq (Except e a) := fun x y =>
  match x, y with
  | .error u, .error v => decidable_of_iff (u = v) (by simp)
  | .ok u, .ok v => decidable_of_iff (u = v) (by simp)
  | .error _, .ok _ => isFalse (by simp)
  | .ok _, .error _ => isFalse (by simp)

/-- Stand-in for `get_password_hash` of `backend/auth.py` in concrete
instances (no claim depends on its behaviour). -/
def hashW (s : String) : String := s ++ "#hashed"

/-- Concrete state: one user, no items, no cart. -/
def dbU : DB := ⟨[⟨1, "a@b", "al", "h"⟩], [], [], [], 2, 1, 1⟩

/-- Concrete state: one user and the item of the spec's test scenario
(price 199.99, stock 50), no cart yet. -/
def dbW : DB :=
  ⟨[⟨1, "a@b", "al", "h"⟩], [⟨1, "Widget", none, 19999/100, "cat", none, 50⟩],
   [], [], 2, 1, 1⟩

/-- Concrete state: user 1 owns cart 1 holding 3 units of item 1. -/
def dbL : DB :=
  ⟨[⟨1, "a@b", "al", "h"⟩], [⟨1, "Widget", none, 19999/100, "cat", none, 50⟩],
   [⟨1, 1, 0⟩], [⟨1, 1, 1, 3⟩], 2, 2, 2⟩

/-- 101 items: one more than the default `limit` of `get_items`. -/
def manyItems : List Item :=
  (List.range 101).map (fun i => ⟨i, "p", none, 1, "c", none, 1⟩)

/-- Concrete state holding 101 items. -/
def dbM : DB := ⟨[], manyItems, [], [], 1, 1, 1⟩

/-- C9: after every sequence of cart operations from a valid state, every
persisted cart line has quantity at least 1, and the (cart_id, item_id)
pairs of the lines are pairwise distinct: one line per item per cart. -/
theorem cart_line_invariants (db : DB) (ops : List CartOp) (hwf : db.WF) :
    (∀ r ∈ (applyOps db ops).cart_items, 1 ≤ r.quantity) ∧
    (applyOps db ops).cart_items.Pairwise
      (fun a b => a.cart_id ≠ b.cart_id ∨ a.item_id ≠ b.item_id) := by
  have h := WF_applyOps db ops hwf
  exact ⟨h.2.2.2.2.2.2.2.1, h.2.2.2.2.2.2.2.2.1⟩

/-- Witness for C9 at a concrete state and operation sequence. -/
theorem cart_line_invariants_witness :
    dbL.WF ∧
    ((∀ r ∈ (applyOps dbL [CartOp.add 1 1 2 5]).cart_items, 1 ≤ r.quantity) ∧
      (applyOps dbL [CartOp.add 1 1 2 5]).cart_items.Pairwise
        (fun a b => a.cart_id ≠ b.cart_id ∨ a.item_id ≠ b.item_id)) :=
  ⟨by decide, cart_line_invariants dbL [CartOp.add 1 1 2 5] (by decide)⟩

/-- C10: cart operations never touch the items table, and after every
sequence of cart operations from a valid state every persisted line's
quantity is within the stock of its referenced item. -/
theorem cart_stock_invariant (db : DB) (ops : List CartOp) (hwf : db.WF) :
    (applyOps db ops).items = db.items ∧
    ∀ r ∈ (applyOps db ops).cart_items, ∀ it ∈ (applyOps db ops).items,
      it.id = r.item_id → r.quantity ≤ it.stock_quantity :=
  ⟨applyOps_items db ops, (WF_applyOps db ops hwf).2.2.2.2.2.2.2.2.2.2⟩

/-- Witness for C10 at a concrete state and operation sequence. -/
theorem cart_stock_invariant_witness :
    dbL.WF ∧
    ((applyOps dbL [CartOp.add 1 1 47 5]).items = dbL.items ∧
      ∀ r ∈ (applyOps dbL [CartOp.add 1 1 47 5]).cart_items,
        ∀ it ∈ (applyOps dbL [CartOp.add 1 1 47 5]).items,
          it.id = r.item_id → r.quantity ≤ it.stock_quantity) :=
  ⟨by decide, cart_stock_invariant dbL [CartOp.add 1 1 47 5] (by decide)⟩





/-- C7: signup with an already-registered email or username fails with the
409-style conflict (HTTP 400 in this API, message "Email or username already
registered") and leaves the state untouched; otherwise it creates exactly one
user and one cart owned by that user, and returns only the public user
fields (no password hash). -/
theorem signup_spec (hash : String → String) (db : DB)
    (email username password : String) (now : Nat) :
    ((∃ u ∈ db.users, u.email = email ∨ u.username = username) →
      signup hash db email username password now =
        (.error ⟨400, "Email or username already registered"⟩, db)) ∧
    ((∀ u ∈ db.users, u.email ≠ email ∧ u.username ≠ username) →
      signup hash db email username password now =
        (.ok ⟨db.next_user_id, email, username⟩,
          { db with
            users := db.users ++ [⟨db.next_user_id, email, username, hash password⟩]
            next_user_id := db.next_user_id + 1
            carts := db.carts ++ [⟨db.next_cart_id, db.next_user_id, now⟩]
            next_cart_id := db.next_cart_id + 1 })) := by
  constructor
  · rintro ⟨u, hu, hmatch⟩
    unfold signup
    rcases hfind : db.users.find? (fun v => v.email == email || v.username == username)
      with _ | v
    · rw [List.find?_eq_none] at hfind
      have := hfind u hu
      simp only [Bool.or_eq_true, beq_iff_eq, not_or] at this
      rcases hmatch with h | h
      · exact absurd h this.1
      · exact absurd h this.2
    · rw [hfind]
  · intro h
    unfold signup
    rcases hfind : db.users.find? (fun v => v.email == email || v.username == username)
      with _ | v
    · rw [hfind]
    · have hv := List.find?_some hfind
      have hmem := List.mem_of_find?_eq_some hfind
      simp only [Bool.or_eq_true, beq_iff_eq] at hv
      rcases hv with h1 | h1
      · exact absurd h1 (h v hmem).1
      · exact absurd h1 (h v hmem).2

/-- Witness for C7: the conflict branch at a concrete state with a taken
email, and the success branch at a fresh email and username. -/
theorem signup_spec_witness :
    ((∃ u ∈ dbU.users, u.email = "a@b" ∨ u.username = "x") ∧
      signup hashW dbU "a@b" "x" "pw" 0 =
        (.error ⟨400, "Email or username already registered"⟩, dbU)) ∧
    ((∀ u ∈ dbU.users, u.email ≠ "n@w" ∧ u.username ≠ "bob") ∧
      signup hashW dbU "n@w" "bob" "pw" 0 =
        (.ok ⟨2, "n@w", "bob"⟩,
          { dbU with
            users := dbU.users ++ [⟨2, "n@w", "bob", hashW "pw"⟩]
            next_user_id := 3
            carts := dbU.carts ++ [⟨1, 2, 0⟩]
            next_cart_id := 2 })) :=
  ⟨⟨by decide, (signup_spec hashW dbU "a@b" "x" "pw" 0).1 (by decide)⟩,
   ⟨by decide, (signup_spec hashW dbU "n@w" "bob" "pw" 0).2 (by decide)⟩⟩

/-- C8: `clear_cart` is idempotent — a second clear does not change the
state — and after a clear the user has a cart with zero lines; when no cart
existed one is created rather than failing (`clear_cart` is total and never
returns a domain error). -/
theorem clear_cart_idempotent (db : DB) (uid now now2 : Nat) (hwf : db.WF) :
    (clear_cart (clear_cart db uid now).2 uid now2).2 = (clear_cart db uid now).2 ∧
    ∃ c ∈ (clear_cart db uid now).2.carts, c.user_id = uid ∧
      ∀ r ∈ (clear_cart db uid now).2.cart_items, r.cart_id ≠ c.id := by
  obtain ⟨-, -, -, -, -, -, hcicl, -, -, -, -⟩ := hwf
  rcases hfind : findCart db uid with _ | cart
  · rw [clear_cart_missing hfind]
    dsimp only
    have hfind2 : findCart { db with
        carts := db.carts ++ [(⟨db.next_cart_id, uid, now⟩ : CartRow)]
        next_cart_id := db.next_cart_id + 1 } uid =
        some ⟨db.next_cart_id, uid, now⟩ := by
      unfold findCart at hfind ⊢
      dsimp only
      rw [List.find?_append, hfind]
      simp [List.find?_cons]
    rw [clear_cart_found hfind2]
    dsimp only
    refine ⟨?_, ⟨db.next_cart_id, uid, now⟩, by simp, rfl, ?_⟩
    · have hfe : db.cart_items.filter
          (fun r => r.cart_id != (⟨db.next_cart_id, uid, now⟩ : CartRow).id) =
          db.cart_items := by
        apply List.filter_eq_self.mpr
        intro r hr
        simpa using Nat.ne_of_lt (hcicl r hr)
      rw [hfe]
    · intro r hr
      exact Nat.ne_of_lt (hcicl r hr)
  · rw [clear_cart_found hfind]
    dsimp only
    have hfind2 : findCart { db with
        cart_items := db.cart_items.filter (fun r => r.cart_id != cart.id) } uid =
        some cart := hfind
    rw [clear_cart_found hfind2]
    dsimp only
    refine ⟨?_, cart, List.mem_of_find?_eq_some hfind,
      by simpa using List.find?_some hfind, ?_⟩
    · have hfe : (db.cart_items.filter (fun r => r.cart_id != cart.id)).filter
          (fun r => r.cart_id != cart.id) =
          db.cart_items.filter (fun r => r.cart_id != cart.id) := by
        apply List.filter_eq_self.mpr
        intro r hr
        exact (List.mem_filter.mp hr).2
      rw [hfe]
    · intro r hr
      simpa using (List.mem_filter.mp hr).2

/-- Witness for C8 at a concrete state whose cart holds a line. -/
theorem clear_cart_idempotent_witness :
    dbL.WF ∧
    ((clear_cart (clear_cart dbL 1 7).2 1 8).2 = (clear_cart dbL 1 7).2 ∧
      ∃ c ∈ (clear_cart dbL 1 7).2.carts, c.user_id = 1 ∧
        ∀ r ∈ (clear_cart dbL 1 7).2.cart_items, r.cart_id ≠ c.id) :=
  ⟨by decide, clear_cart_idempotent dbL 1 7 8 (by decide)⟩





/-- C2 counterexample: from a state where user 1 has no cart, adding a
nonexistent item fails with 404 "Item not found", yet the state after the
call is not the state before it — a newly created cart row was persisted
(`add_to_cart` commits the get-or-create-cart step before validating the
item). -/
theorem add_error_persists_cart_row :
    (add_to_cart dbU 1 1 1 0).1 = .error ⟨404, "Item not found"⟩ ∧
    dbU.carts = [] ∧
    (add_to_cart dbU 1 1 1 0).2.carts = [⟨1, 1, 0⟩] ∧
    (add_to_cart dbU 1 1 1 0).2 ≠ dbU := by decide

/-- C2 (amended): on every domain-error path the persisted cart lines equal
the lines before the call; `update_cart_item` and `remove_from_cart` leave
the whole state unchanged on error, and `add_to_cart` leaves it unchanged
except possibly for the already-committed creation of an empty cart row for
the user.  (`clear_cart` has no domain-error path.) -/
theorem cart_write_rollback (db : DB) (uid iid : Nat) (q : Int) (now : Nat) :
    (∀ e, (add_to_cart db uid iid q now).1 = .error e →
        (add_to_cart db uid iid q now).2.cart_items = db.cart_items ∧
        ((add_to_cart db uid iid q now).2 = db ∨
          (add_to_cart db uid iid q now).2 = { db with
            carts := db.carts ++ [⟨db.next_cart_id, uid, now⟩]
            next_cart_id := db.next_cart_id + 1 })) ∧
    (∀ e, (update_cart_item db uid iid q now).1 = .error e →
        (update_cart_item db uid iid q now).2 = db) ∧
    (∀ e, (remove_from_cart db uid iid now).1 = .error e →
        (remove_from_cart db uid iid now).2 = db) := by
  refine ⟨?_, ?_, ?_⟩
  · intro e he
    by_cases hq : q ≤ 0
    · rw [add_to_cart_nonpos hq]
      exact ⟨rfl, Or.inl rfl⟩
    · rcases hfind : findCart db uid with _ | cart
      · have hg := @getOrCreateCart_missing db uid now hfind
        rcases hit : findItem { db with
            carts := db.carts ++ [(⟨db.next_cart_id, uid, now⟩ : CartRow)]
            next_cart_id := db.next_cart_id + 1 } iid with _ | item
        · rw [add_to_cart_no_item hq hg hit]
          exact ⟨rfl, Or.inr rfl⟩
        · by_cases hs : item.stock_quantity ≤ 0
          · rw [add_to_cart_out_of_stock hq hg hit hs]
            exact ⟨rfl, Or.inr rfl⟩
          · rcases hline : findCartItem { db with
                carts := db.carts ++ [(⟨db.next_cart_id, uid, now⟩ : CartRow)]
                next_cart_id := db.next_cart_id + 1 }
                (⟨db.next_cart_id, uid, now⟩ : CartRow).id iid with _ | line
            · by_cases hover : item.stock_quantity < q
              · rw [add_to_cart_new_over hq hg hit hs hline hover]
                exact ⟨rfl, Or.inr rfl⟩
              · rw [add_to_cart_new_ok hq hg hit hs hline hover] at he
                simp at he
            · by_cases hover : item.stock_quantity < line.quantity + q
              · rw [add_to_cart_exist_over hq hg hit hs hline hover]
                exact ⟨rfl, Or.inr rfl⟩
              · rw [add_to_cart_exist_ok hq hg hit hs hline hover] at he
                simp at he
      · have hg := @getOrCreateCart_found db uid now cart hfind
        rcases hit : findItem db iid with _ | item
        · rw [add_to_cart_no_item hq hg hit]
          exact ⟨rfl, Or.inl rfl⟩
        · by_cases hs : item.stock_quantity ≤ 0
          · rw [add_to_cart_out_of_stock hq hg hit hs]
            exact ⟨rfl, Or.inl rfl⟩
          · rcases hline : findCartItem db cart.id iid with _ | line
            · by_cases hover : item.stock_quantity < q
              · rw [add_to_cart_new_over hq hg hit hs hline hover]
                exact ⟨rfl, Or.inl rfl⟩
              · rw [add_to_cart_new_ok hq hg hit hs hline hover] at he
                simp at he
            · by_cases hover : item.stock_quantity < line.quantity + q
              · rw [add_to_cart_exist_over hq hg hit hs hline hover]
                exact ⟨rfl, Or.inl rfl⟩
              · rw [add_to_cart_exist_ok hq hg hit hs hline hover] at he
                simp at he
  · intro e he
    by_cases hneg : q < 0
    · rw [update_neg hneg]
    · rcases hc : findCart db uid with _ | cart
      · rw [update_no_cart hneg hc]
      · rcases hl : findCartItem db cart.id iid with _ | line
        · rw [update_no_line hneg hc hl]
        · rcases hi : findItem db iid with _ | item
          · rw [update_no_item hneg hc hl hi]
          · by_cases hover : item.stock_quantity < q
            · rw [update_over hneg hc hl hi hover]
            · by_cases hq0 : q = 0
              · subst hq0
                rw [update_zero hc hl hi hover] at he
                simp at he
              · rw [update_set hneg hq0 hc hl hi hover] at he
                simp at he
  · intro e he
    rcases hc : findCart db uid with _ | cart
    · rw [remove_no_cart hc]
    · rcases hl : findCartItem db cart.id iid with _ | line
      · rw [remove_no_line hc hl]
      · rw [remove_ok hc hl] at he
        simp at he

/-- Witness for the amended C2 at a concrete erroring call of each kind. -/
theorem cart_write_rollback_witness :
    ((add_to_cart dbL 1 9 1 0).1 = .error ⟨404, "Item not found"⟩ ∧
      (add_to_cart dbL 1 9 1 0).2.cart_items = dbL.cart_items) ∧
    ((update_cart_item dbL 1 9 1 0).1 = .error ⟨404, "Item not found in cart"⟩ ∧
      (update_cart_item dbL 1 9 1 0).2 = dbL) ∧
    ((remove_from_cart dbL 1 9 0).1 = .error ⟨404, "Item not found in cart"⟩ ∧
      (remove_from_cart dbL 1 9 0).2 = dbL) :=
  ⟨⟨by decide, ((cart_write_rollback dbL 1 9 1 0).1 ⟨404, "Item not found"⟩
      (by decide)).1⟩,
   ⟨by decide, (cart_write_rollback dbL 1 9 1 0).2.1 ⟨404, "Item not found in cart"⟩
      (by decide)⟩,
   ⟨by decide, (cart_write_rollback dbL 1 9 1 0).2.2 ⟨404, "Item not found in cart"⟩
      (by decide)⟩⟩

/-- C6 counterexample: with 101 items created and no filters supplied, the
endpoint's default pagination (`skip = 0`, `limit = 100`) returns only 100
items, not the whole set of created items. -/
theorem get_items_default_truncates :
    get_items dbM 0 100 none none none none ≠ dbM.items := by decide

/-- C6 (amended): with the default `skip = 0` and any `limit` at least the
number of items, a no-filter call returns exactly the created items in
creation order, and a nonempty category filter returns exactly the items of
that category. -/
theorem get_items_exact (db : DB) (limit : Nat) (h : db.items.length ≤ limit) :
    get_items db 0 limit none none none none = db.items ∧
    ∀ c : String, c ≠ "" →
      get_items db 0 limit (some c) none none none =
        db.items.filter (fun it => it.category == c) := by
  constructor
  · unfold get_items
    dsimp only
    rw [List.drop_zero]
    exact List.take_of_length_le h
  · intro c hc
    unfold get_items
    dsimp only
    rw [if_pos hc, List.drop_zero]
    exact List.take_of_length_le (le_trans (List.length_filter_le _ _) h)

/-- Witness for the amended C6 at a concrete catalog. -/
theorem get_items_exact_witness :
    dbW.items.length ≤ 100 ∧
    (get_items dbW 0 100 none none none none = dbW.items ∧
      ∀ c : String, c ≠ "" →
        get_items dbW 0 100 (some c) none none none =
          dbW.items.filter (fun it => it.category == c)) :=
  ⟨by decide, get_items_exact dbW 100 (by decide)⟩

/-- C3: `get_cart` is total — it never fails with NotFound: with no cart it
creates one and returns the empty view (no lines, total_items 0,
total_price 0.0); with a cart it returns the lines joined to their items,
total_items the sum of the line quantities, and total_price the sum of
item price times quantity over the lines, rounded to 2 decimals only on the
final sum. -/
theorem get_cart_spec (db : DB) (uid now : Nat) (hwf : db.WF) :
    (findCart db uid = none →
      (get_cart db uid now).1.items = [] ∧
      (get_cart db uid now).1.total_items = 0 ∧
      (get_cart db uid now).1.total_price = 0 ∧
      ∃ c ∈ (get_cart db uid now).2.carts, c.user_id = uid) ∧
    (∀ cart, findCart db uid = some cart →
      (get_cart db uid now).2 = db ∧
      (get_cart db uid now).1.items =
        (db.cart_items.filter (fun r => r.cart_id == cart.id)).map
          (fun r => lineView r (itemOfD db r)) ∧
      (get_cart db uid now).1.total_items =
        ((db.cart_items.filter (fun r => r.cart_id == cart.id)).map
          CartItemRow.quantity).sum ∧
      (get_cart db uid now).1.total_price =
        round2 (((db.cart_items.filter (fun r => r.cart_id == cart.id)).map
          (fun r => (itemOfD db r).price * (r.quantity : ℚ))).sum)) := by
  constructor
  · intro h
    rw [get_cart_missing h]
    exact ⟨rfl, rfl, rfl, ⟨db.next_cart_id, uid, now⟩, by simp, rfl⟩
  · intro cart hc
    rw [get_cart_found hc]
    have hjoin : cartJoin db cart.id =
        (db.cart_items.filter (fun r => r.cart_id == cart.id)).map
          (fun r => (r, itemOfD db r)) := by
      unfold cartJoin
      apply filterMap_eq_map_of_some
      intro r hr
      have hrm : r ∈ db.cart_items := List.mem_of_mem_filter hr
      obtain ⟨it, hitm, hitid⟩ := hwf.2.2.2.2.2.2.2.2.2.1 r hrm
      have hfi : findItem db r.item_id = some it := by
        have := findItem_eq_some hwf.1 hitm
        rwa [hitid] at this
      rw [hfi]
      unfold itemOfD
      rw [hfi]
      rfl
    refine ⟨rfl, ?_, ?_, ?_⟩
    · show (cartViewOf db cart).items = _
      unfold cartViewOf
      dsimp only
      rw [hjoin, List.map_map]
      rfl
    · show (cartViewOf db cart).total_items = _
      unfold cartViewOf
      dsimp only
      rw [hjoin, List.map_map]
      rfl
    · show (cartViewOf db cart).total_price = _
      unfold cartViewOf
      dsimp only
      rw [hjoin, List.map_map]
      rfl

/-- Witness for C3 at a concrete state: the empty-cart branch for a user
with no cart, and the computed totals for a cart holding 3 of a 199.99
item. -/
theorem get_cart_spec_witness :
    (dbW.WF ∧ findCart dbW 1 = none ∧
      ((get_cart dbW 1 9).1.items = [] ∧
        (get_cart dbW 1 9).1.total_items = 0 ∧
        (get_cart dbW 1 9).1.total_price = 0 ∧
        ∃ c ∈ (get_cart dbW 1 9).2.carts, c.user_id = 1)) ∧
    (dbL.WF ∧ findCart dbL 1 = some ⟨1, 1, 0⟩ ∧
      ((get_cart dbL 1 9).2 = dbL ∧
        (get_cart dbL 1 9).1.items =
          (dbL.cart_items.filter (fun r => r.cart_id == (1 : Nat))).map
            (fun r => lineView r (itemOfD dbL r)) ∧
        (get_cart dbL 1 9).1.total_items =
          ((dbL.cart_items.filter (fun r => r.cart_id == (1 : Nat))).map
            CartItemRow.quantity).sum ∧
        (get_cart dbL 1 9).1.total_price =
          round2 (((dbL.cart_items.filter (fun r => r.cart_id == (1 : Nat))).map
            (fun r => (itemOfD dbL r).price * (r.quantity : ℚ))).sum))) :=
  ⟨⟨by decide, by decide, (get_cart_spec dbW 1 9 (by decide)).1 (by decide)⟩,
   ⟨by decide, by decide, (get_cart_spec dbL 1 9 (by decide)).2 ⟨1, 1, 0⟩ (by decide)⟩⟩





/-- C4: `add_item` fails 400 for non-positive quantity, 404 for an unknown
item, 400 "Item is out of stock" when the item's stock is ≤ 0, 400 with the
available stock when a first-time quantity alone exceeds the stock, and
otherwise (no existing line) creates exactly one new line carrying exactly
the requested quantity in the user's cart. -/
theorem add_item_spec (db : DB) (uid iid : Nat) (qty : Int) (now : Nat)
    (hwf : db.WF)
    (hno : ∀ c ∈ db.carts, c.user_id = uid →
      ∀ r ∈ db.cart_items, r.cart_id = c.id → r.item_id ≠ iid) :
    (qty ≤ 0 → (add_to_cart db uid iid qty now).1 =
      .error ⟨400, "Quantity must be greater than 0"⟩) ∧
    (0 < qty → findItem db iid = none →
      (add_to_cart db uid iid qty now).1 = .error ⟨404, "Item not found"⟩) ∧
    (∀ item, 0 < qty → findItem db iid = some item → item.stock_quantity ≤ 0 →
      (add_to_cart db uid iid qty now).1 = .error ⟨400, "Item is out of stock"⟩) ∧
    (∀ item, 0 < qty → findItem db iid = some item → 0 < item.stock_quantity →
      item.stock_quantity < qty →
      (add_to_cart db uid iid qty now).1 = .error ⟨400, "Only " ++
        toString item.stock_quantity ++ " items available in stock"⟩ ∧
      (add_to_cart db uid iid qty now).2.cart_items = db.cart_items) ∧
    (∀ item, 0 < qty → findItem db iid = some item → 0 < item.stock_quantity →
      qty ≤ item.stock_quantity →
      ∃ c ∈ (add_to_cart db uid iid qty now).2.carts, c.user_id = uid ∧
        (add_to_cart db uid iid qty now).2.cart_items =
          db.cart_items ++ [⟨db.next_cart_item_id, c.id, iid, qty⟩]) := by
  obtain ⟨cart, db1, hgoc, hcu, hcmem, hfc1, hus, hitems, hlines, hnci, hfresh,
    hdisj, hwf1⟩ := getOrCreateCart_spec db uid now hwf
  have hnopair : ∀ r ∈ db.cart_items, ¬(r.cart_id = cart.id ∧ r.item_id = iid) := by
    rcases hdisj with hsome | hnone
    · exact no_pair_of_no_user_line (List.mem_of_find?_eq_some hsome)
        (by simpa using List.find?_some hsome) hno
    · exact no_pair_of_fresh_cart (hfresh hnone)
  have hline1 : findCartItem db1 cart.id iid = none := by
    unfold findCartItem
    rw [hlines]
    exact findCartItem_none_of_no_pair hnopair
  refine ⟨?_, ?_, ?_, ?_, ?_⟩
  · intro hq
    rw [add_to_cart_nonpos hq]
  · intro hq hit
    have hit1 : findItem db1 iid = none := by
      unfold findItem
      rw [hitems]
      exact hit
    rw [add_to_cart_no_item (by omega) hgoc hit1]
  · intro item hq hit hs
    have hit1 : findItem db1 iid = some item := by
      unfold findItem
      rw [hitems]
      exact hit
    rw [add_to_cart_out_of_stock (by omega) hgoc hit1 hs]
  · intro item hq hit hs hover
    have hit1 : findItem db1 iid = some item := by
      unfold findItem
      rw [hitems]
      exact hit
    rw [add_to_cart_new_over (by omega) hgoc hit1 (by omega) hline1 hover]
    exact ⟨rfl, hlines⟩
  · intro item hq hit hs hle
    have hit1 : findItem db1 iid = some item := by
      unfold findItem
      rw [hitems]
      exact hit
    rw [add_to_cart_new_ok (by omega) hgoc hit1 (by omega) hline1 (by omega)]
    refine ⟨cart, hcmem, hcu, ?_⟩
    dsimp only
    rw [hlines, hnci]

/-- Witness for C4 at the spec's scenario item (stock 50): rejecting
quantity 0, an unknown item, quantity 51, and creating a first line of 3. -/
theorem add_item_spec_witness :
    dbW.WF ∧
    ((add_to_cart dbW 1 1 0 5).1 =
      .error ⟨400, "Quantity must be greater than 0"⟩) ∧
    ((add_to_cart dbW 1 9 1 5).1 = .error ⟨404, "Item not found"⟩) ∧
    ((add_to_cart dbW 1 1 51 5).1 = .error ⟨400, "Only " ++
        toString (50 : Int) ++ " items available in stock"⟩ ∧
      (add_to_cart dbW 1 1 51 5).2.cart_items = dbW.cart_items) ∧
    (∃ c ∈ (add_to_cart dbW 1 1 3 5).2.carts, c.user_id = 1 ∧
      (add_to_cart dbW 1 1 3 5).2.cart_items =
        dbW.cart_items ++ [⟨dbW.next_cart_item_id, c.id, 1, 3⟩]) := by
  have h1 := (add_item_spec dbW 1 1 0 5 (by decide) (by decide)).1 (by decide)
  have h2 := (add_item_spec dbW 1 9 1 5 (by decide) (by decide)).2.1 (by decide)
    (by rfl)
  have h4 := (add_item_spec dbW 1 1 51 5 (by decide) (by decide)).2.2.2.1
    ⟨1, "Widget", none, 19999/100, "cat", none, 50⟩ (by decide) (by rfl)
    (by decide) (by decide)
  have h5 := (add_item_spec dbW 1 1 3 5 (by decide) (by decide)).2.2.2.2
    ⟨1, "Widget", none, 19999/100, "cat", none, 50⟩ (by decide) (by rfl)
    (by decide) (by decide)
  exact ⟨by decide, h1, h2, h4, h5⟩





/-- C5: when the user's cart holds a line for the item, `update_item` with
quantity 0 succeeds, `remove_item` succeeds, and both leave identical cart
lines: the line for the item is absent afterwards and every other line is
unchanged. -/
theorem update_zero_eq_remove (db : DB) (uid iid now : Nat) (hwf : db.WF)
    (cart : CartRow) (hc : cart ∈ db.carts) (hcu : cart.user_id = uid)
    (hline : ∃ r ∈ db.cart_items, r.cart_id = cart.id ∧ r.item_id = iid) :
    (∃ v, (update_cart_item db uid iid 0 now).1 = .ok v) ∧
    (∃ v, (remove_from_cart db uid iid now).1 = .ok v) ∧
    (update_cart_item db uid iid 0 now).2.cart_items =
      (remove_from_cart db uid iid now).2.cart_items ∧
    (∀ r ∈ (update_cart_item db uid iid 0 now).2.cart_items,
      ¬(r.cart_id = cart.id ∧ r.item_id = iid)) ∧
    (∀ r ∈ db.cart_items, ¬(r.cart_id = cart.id ∧ r.item_id = iid) →
      r ∈ (update_cart_item db uid iid 0 now).2.cart_items) := by
  obtain ⟨hind, hcnd, hund, hclt, hcind, hcilt, hcicl, hqpos, hpw, hex, hqs⟩ := hwf
  have hfc : findCart db uid = some cart := by
    have := findCart_eq_some hund hc
    rwa [hcu] at this
  rcases hl : findCartItem db cart.id iid with _ | line
  · obtain ⟨r, hr, hp1, hp2⟩ := hline
    unfold findCartItem at hl
    rw [List.find?_eq_none] at hl
    have := hl r hr
    simp only [Bool.and_eq_true, beq_iff_eq, not_and] at this
    exact absurd hp2 (this hp1)
  · have hlmem : line ∈ db.cart_items := List.mem_of_find?_eq_some hl
    have hlpair : line.cart_id = cart.id ∧ line.item_id = iid := by
      simpa using List.find?_some hl
    obtain ⟨item, hitm, hitid⟩ := hex line hlmem
    have hfi : findItem db iid = some item := by
      have := findItem_eq_some hind hitm
      rwa [hitid, hlpair.2] at this
    have hq1 := hqpos line hlmem
    have hstock : line.quantity ≤ item.stock_quantity := hqs line hlmem item hitm hitid
    have hover : ¬ item.stock_quantity < 0 := by omega
    rw [update_zero hfc hl hfi hover, remove_ok hfc hl]
    have hfc2 : findCart { db with
        cart_items := db.cart_items.filter (fun r => r.id != line.id) } uid =
        some cart := hfc
    rw [get_cart_found hfc2]
    dsimp only
    refine ⟨⟨_, rfl⟩, ⟨_, rfl⟩, rfl, ?_, ?_⟩
    · intro r hr hpair
      have hrm := List.mem_of_mem_filter hr
      have hrne : r.id ≠ line.id := by simpa using (List.mem_filter.mp hr).2
      have hrneq : r ≠ line := fun h => hrne (congrArg CartItemRow.id h)
      have hsym : Symmetric (fun a b : CartItemRow =>
          a.cart_id ≠ b.cart_id ∨ a.item_id ≠ b.item_id) := by
        intro a b h
        rcases h with h | h
        · exact Or.inl (Ne.symm h)
        · exact Or.inr (Ne.symm h)
      have hR := List.Pairwise.forall hsym hpw hrm hlmem hrneq
      rcases hR with h | h
      · exact h (hpair.1.trans hlpair.1.symm)
      · exact h (hpair.2.trans hlpair.2.symm)
    · intro r hr hnp
      have hrne : r.id ≠ line.id := by
        intro h
        have hrl : r = line := key_inj hcind hr hlmem h
        rw [hrl] at hnp
        exact hnp ⟨hlpair.1, hlpair.2⟩
      apply List.mem_filter.mpr
      exact ⟨hr, by simpa using hrne⟩

/-- Witness for C5 at a concrete state whose cart holds a line of item 1. -/
theorem update_zero_eq_remove_witness :
    dbL.WF ∧
    ((∃ v, (update_cart_item dbL 1 1 0 9).1 = .ok v) ∧
      (∃ v, (remove_from_cart dbL 1 1 9).1 = .ok v) ∧
      (update_cart_item dbL 1 1 0 9).2.cart_items =
        (remove_from_cart dbL 1 1 9).2.cart_items ∧
      (∀ r ∈ (update_cart_item dbL 1 1 0 9).2.cart_items,
        ¬(r.cart_id = (⟨1, 1, 0⟩ : CartRow).id ∧ r.item_id = 1)) ∧
      (∀ r ∈ dbL.cart_items, ¬(r.cart_id = (⟨1, 1, 0⟩ : CartRow).id ∧ r.item_id = 1) →
        r ∈ (update_cart_item dbL 1 1 0 9).2.cart_items)) :=
  ⟨by decide, update_zero_eq_remove dbL 1 1 9 (by decide) ⟨1, 1, 0⟩ (by decide)
    (by decide) (by decide)⟩





theorem add_to_cart_after_new (db1 : DB) (uid iid : Nat) (q1 q2 : Int)
    (now2 : Nat) (hwf1 : db1.WF) (cart : CartRow)
    (hfc : findCart db1 uid = some cart)
    (item : Item) (hit : findItem db1 iid = some item)
    (hnopair : ∀ r ∈ db1.cart_items, ¬(r.cart_id = cart.id ∧ r.item_id = iid))
    (hq1 : 0 < q1) (hq2 : 0 < q2) :
    ∀ db2, db2 = { db1 with
        cart_items := db1.cart_items ++ [⟨db1.next_cart_item_id, cart.id, iid, q1⟩]
        next_cart_item_id := db1.next_cart_item_id + 1 } →
      (q1 + q2 ≤ item.stock_quantity →
        (add_to_cart db2 uid iid q2 now2).2.cart_items =
          db1.cart_items ++ [⟨db1.next_cart_item_id, cart.id, iid, q1 + q2⟩] ∧
        (add_to_cart db2 uid iid q2 now2).2.carts = db1.carts) ∧
      (item.stock_quantity < q1 + q2 →
        (∃ e, (add_to_cart db2 uid iid q2 now2).1 = .error e ∧
          e.status_code = 400) ∧
        (add_to_cart db2 uid iid q2 now2).2 = db2) := by
  intro db2 hdb2
  subst hdb2
  obtain ⟨hind, hcnd, hund, hclt, hcind, hcilt, hcicl, hqpos, hpw, hex, hqs⟩ := hwf1
  have hfc2 : findCart { db1 with
      cart_items := db1.cart_items ++ [⟨db1.next_cart_item_id, cart.id, iid, q1⟩]
      next_cart_item_id := db1.next_cart_item_id + 1 } uid = some cart := hfc
  have hgoc2 := @getOrCreateCart_found _ uid now2 cart hfc2
  have hit2 : findItem { db1 with
      cart_items := db1.cart_items ++ [⟨db1.next_cart_item_id, cart.id, iid, q1⟩]
      next_cart_item_id := db1.next_cart_item_id + 1 } iid = some item := hit
  have hline2 : findCartItem { db1 with
      cart_items := db1.cart_items ++ [⟨db1.next_cart_item_id, cart.id, iid, q1⟩]
      next_cart_item_id := db1.next_cart_item_id + 1 } cart.id iid =
      some ⟨db1.next_cart_item_id, cart.id, iid, q1⟩ := by
    unfold findCartItem
    dsimp only
    rw [List.find?_append]
    have h0 : db1.cart_items.find?
        (fun r => r.cart_id == cart.id && r.item_id == iid) = none := by
      rw [List.find?_eq_none]
      intro r hr
      simpa using hnopair r hr
    rw [h0]
    simp [List.find?_cons]
  constructor
  · intro hle
    have hs : ¬ item.stock_quantity ≤ 0 := by omega
    have hover : ¬ item.stock_quantity <
        (⟨db1.next_cart_item_id, cart.id, iid, q1⟩ : CartItemRow).quantity + q2 := by
      show ¬ item.stock_quantity < q1 + q2
      omega
    rw [add_to_cart_exist_ok (by omega) hgoc2 hit2 hs hline2 hover]
    dsimp only
    constructor
    · rw [List.map_append]
      have hmap1 : db1.cart_items.map
          (fun r => if r.id = (⟨db1.next_cart_item_id, cart.id, iid, q1⟩ :
              CartItemRow).id then { r with quantity :=
                (⟨db1.next_cart_item_id, cart.id, iid, q1⟩ : CartItemRow).quantity + q2 }
            else r) = db1.cart_items := by
        rw [show db1.cart_items.map _ = db1.cart_items.map id from
          List.map_congr_left ?_, List.map_id]
        intro r hr
        have : r.id ≠ db1.next_cart_item_id := Nat.ne_of_lt (hcilt r hr)
        simp only [if_neg this, id]
      rw [hmap1]
      simp
    · rfl
  · intro hover
    by_cases hs : item.stock_quantity ≤ 0
    · rw [add_to_cart_out_of_stock (by omega) hgoc2 hit2 hs]
      exact ⟨⟨_, rfl, rfl⟩, rfl⟩
    · have hov2 : item.stock_quantity <
          (⟨db1.next_cart_item_id, cart.id, iid, q1⟩ : CartItemRow).quantity + q2 := by
        show item.stock_quantity < q1 + q2
        exact hover
      rw [add_to_cart_exist_over (by omega) hgoc2 hit2 hs hline2 hov2]
      exact ⟨⟨_, rfl, rfl⟩, rfl⟩





/-- C1: from a state where the user's cart (if any) holds no line for the
item, adding q1 then q2 (both positive) of the same item leaves exactly one
cart line for it, of quantity q1+q2, whenever q1+q2 is within the item's
stock; if the accumulated quantity at either step exceeds the stock, that
step fails with a 400 BadRequest and leaves the cart lines exactly as they
were before it. -/
theorem add_add_accumulates (db : DB) (uid iid : Nat) (q1 q2 : Int)
    (now1 now2 : Nat) (hwf : db.WF) (item : Item)
    (hit : findItem db iid = some item) (hq1 : 0 < q1) (hq2 : 0 < q2)
    (hno : ∀ c ∈ db.carts, c.user_id = uid →
      ∀ r ∈ db.cart_items, r.cart_id = c.id → r.item_id ≠ iid) :
    (q1 + q2 ≤ item.stock_quantity →
      ∃ c ∈ (add_to_cart (add_to_cart db uid iid q1 now1).2 uid iid q2
          now2).2.carts, c.user_id = uid ∧
        ((add_to_cart (add_to_cart db uid iid q1 now1).2 uid iid q2
            now2).2.cart_items.filter
          (fun r => r.cart_id == c.id && r.item_id == iid)) =
          [⟨db.next_cart_item_id, c.id, iid, q1 + q2⟩]) ∧
    (item.stock_quantity < q1 →
      (∃ e, (add_to_cart db uid iid q1 now1).1 = .error e ∧
        e.status_code = 400) ∧
      (add_to_cart db uid iid q1 now1).2.cart_items = db.cart_items) ∧
    (q1 ≤ item.stock_quantity → item.stock_quantity < q1 + q2 →
      (∃ e, (add_to_cart (add_to_cart db uid iid q1 now1).2 uid iid q2
          now2).1 = .error e ∧ e.status_code = 400) ∧
      (add_to_cart (add_to_cart db uid iid q1 now1).2 uid iid q2
        now2).2.cart_items = (add_to_cart db uid iid q1 now1).2.cart_items ∧
      ∃ c ∈ (add_to_cart db uid iid q1 now1).2.carts, c.user_id = uid ∧
        ((add_to_cart db uid iid q1 now1).2.cart_items.filter
          (fun r => r.cart_id == c.id && r.item_id == iid)) =
          [⟨db.next_cart_item_id, c.id, iid, q1⟩]) := by
  obtain ⟨cart, db1, hgoc, hcu, hcmem, hfc1, hus, hitems, hlines, hnci, hfresh,
    hdisj, hwf1⟩ := getOrCreateCart_spec db uid now1 hwf
  have hnopairdb : ∀ r ∈ db.cart_items, ¬(r.cart_id = cart.id ∧ r.item_id = iid) := by
    rcases hdisj with hsome | hnone
    · exact no_pair_of_no_user_line (List.mem_of_find?_eq_some hsome)
        (by simpa using List.find?_some hsome) hno
    · exact no_pair_of_fresh_cart (hfresh hnone)
  have hnopair : ∀ r ∈ db1.cart_items, ¬(r.cart_id = cart.id ∧ r.item_id = iid) := by
    rw [hlines]
    exact hnopairdb
  have hline1 : findCartItem db1 cart.id iid = none := by
    unfold findCartItem
    rw [List.find?_eq_none]
    intro r hr
    simpa using hnopair r hr
  have hit1 : findItem db1 iid = some item := by
    unfold findItem
    rw [hitems]
    exact hit
  have hfilter0 : db.cart_items.filter
      (fun r => r.cart_id == cart.id && r.item_id == iid) = [] := by
    rw [List.filter_eq_nil_iff]
    intro r hr
    simpa using hnopairdb r hr
  refine ⟨?_, ?_, ?_⟩
  · intro hle
    have hstep1 := @add_to_cart_new_ok db uid iid q1 now1 cart db1 item
      (by omega) hgoc hit1 (by omega) hline1 (by omega)
    have hafter := add_to_cart_after_new db1 uid iid q1 q2 now2 hwf1 cart hfc1
      item hit1 hnopair hq1 hq2 _ rfl
    have ha := hafter.1 hle
    rw [hstep1]
    dsimp only
    refine ⟨cart, ?_, hcu, ?_⟩
    · rw [ha.2]
      exact hcmem
    · rw [ha.1, List.filter_append, hlines, hfilter0, hnci]
      simp
  · intro hover
    by_cases hs : item.stock_quantity ≤ 0
    · rw [add_to_cart_out_of_stock (by omega) hgoc hit1 hs]
      exact ⟨⟨_, rfl, rfl⟩, hlines⟩
    · rw [add_to_cart_new_over (by omega) hgoc hit1 hs hline1 hover]
      exact ⟨⟨_, rfl, rfl⟩, hlines⟩
  · intro hle hover
    have hstep1 := @add_to_cart_new_ok db uid iid q1 now1 cart db1 item
      (by omega) hgoc hit1 (by omega) hline1 (by omega)
    have hafter := add_to_cart_after_new db1 uid iid q1 q2 now2 hwf1 cart hfc1
      item hit1 hnopair hq1 hq2 _ rfl
    have hb := hafter.2 hover
    rw [hstep1]
    dsimp only
    refine ⟨hb.1, ?_, cart, hcmem, hcu, ?_⟩
    · rw [hb.2]
    · dsimp only
      rw [List.filter_append, hlines, hfilter0, hnci]
      simp





/-- Witness for C1 at the spec's scenario: item stock 50, adds of 3 then 47
accumulate to a single line of 50. -/
theorem add_add_accumulates_witness :
    dbW.WF ∧ (3 : Int) + 47 ≤ (50 : Int) ∧
    ∃ c ∈ (add_to_cart (add_to_cart dbW 1 1 3 5).2 1 1 47 6).2.carts,
      c.user_id = 1 ∧
      ((add_to_cart (add_to_cart dbW 1 1 3 5).2 1 1 47 6).2.cart_items.filter
        (fun r => r.cart_id == c.id && r.item_id == (1 : Nat))) =
        [⟨dbW.next_cart_item_id, c.id, 1, 3 + 47⟩] :=
  ⟨by decide, by decide,
    (add_add_accumulates dbW 1 1 3 47 5 6 (by decide)
      ⟨1, "Widget", none, 19999/100, "cat", none, 50⟩ (by rfl) (by decide)
      (by decide) (by decide)).1 (by decide)⟩

end ShopEase
